import Mathlib

/-
Verification development for the hrm repository, invoice subsystem.

Shallow embedding of:
  app/services/invoice_service.py   (InvoiceGenerator.prepare_invoice_data, generate_docx,
                                     the legacy module-level generate_invoice)
  app/services/invoice/service.py   (generate_invoice, send_invoice, update_invoice,
                                     finalize_invoice, preview_draft_invoice, delete_draft_invoice)
  app/services/invoice/files.py     (cleanup_invoice_file, get_invoice_file_path,
                                     get_temp_invoice_path)
  app/models/invoice.py             (Invoice row, including the unique=True column
                                     constraint on invoice_number, which is GLOBAL)
  app/models/{company,client,candidate,client_column_config}.py (rows read by the aggregator)

Modelling conventions:
  - UUIDs are modelled as Nat ids.  The source stores candidate ids on the invoice
    row as their string forms and parses them back with UUID(cid); this bijective
    string round trip is elided and ids are kept as Nat throughout.
  - dates are opaque Nat values; strftime formatting is modelled by an injective
    rendering function.
  - Python floats holding currency figures are modelled as Rat.  No claim involves
    float rounding; all claim-relevant flows copy the figures verbatim.
  - JSON scalar values inside the candidate attribute bag are a small Value type.
  - a Python dict is an association list; dict assignment overwrites an existing
    key in place, otherwise appends.  The key type of a line item is Option String
    because the source writes item[fname] where fname = col.get("field_name") may
    be Python None when a configured column has no field_name key.
  - the relational store and the artifact directory are explicit state records;
    every service operation returns the final state together with an Except value.
  - app/services/invoice/service.py reads and writes cgst_rate, sgst_rate and
    igst_rate on ManualTotals and on the Invoice row.  The pydantic schema
    (app/schemas/invoice.py) and the ORM model (app/models/invoice.py) do not
    declare these fields; the embedding carries them as the service code expects,
    defaulted to 0, since no claim mentions them.
-/

namespace HRM

/-- JSON scalar values stored in a candidate attribute bag and in line items. -/
inductive Value where
  | vNull : Value
  | vStr (s : String) : Value
  | vNum (q : Rat) : Value
  | vBool (b : Bool) : Value
deriving DecidableEq, Repr

/-- A candidate attribute bag: JSONB object, string keys. -/
abbrev Bag : Type := List (String × Value)

/-- dict.get on a bag, with a possibly-None key (data.get(fname) where fname can
be None).  A None key is never present in a JSONB object, so it returns none. -/
def bagGet (bag : Bag) : Option String → Option Value
  | none => none
  | some k => (bag.find? (fun p => p.1 = k)).map (fun p => p.2)

/-- A line item dict, keyed by Option String: serial_no and amount live at some
keys, and a configured column lacking field_name writes at the None key. -/
abbrev Item : Type := List (Option String × Value)

/-- Python dict assignment item[k] = v: overwrite in place if the key exists,
otherwise append at the end. -/
def itemIns (l : Item) (k : Option String) (v : Value) : Item :=
  if l.any (fun p => p.1 = k) then
    l.map (fun p => if p.1 = k then (k, v) else p)
  else
    l ++ [(k, v)]

/-- dict lookup on a line item. -/
def itemGet (l : Item) (k : Option String) : Option Value :=
  (l.find? (fun p => p.1 = k)).map (fun p => p.2)

/-- A raw column definition as stored in ClientColumnConfig.column_definitions
(a JSON object; each field may be absent).  Widths are modelled as numbers. -/
structure RawColumn where
  field_name : Option String
  display_label : Option String
  width : Option Rat
  column_width : Option Rat
deriving DecidableEq, Repr

/-- A normalized column as produced by prepare_invoice_data step 4. -/
structure Column where
  field_name : Option String
  display_label : Option String
  width : Rat
deriving DecidableEq, Repr

/-- Python str.lower(), modelled per character (ASCII-faithful, which covers
the synonym comparisons the source performs). -/
def strLower (s : String) : String := String.mk (s.data.map Char.toLower)

/-- The fixed serial-number synonym list of prepare_invoice_data (already
lowercase in the source). -/
def serialSynonyms : List String := ["sr_no", "serial_no", "s_no", "s.no"]

/-- The filter test of prepare_invoice_data: col.get("field_name", "").lower()
is a member of the synonym list. -/
def isSerialColumn (c : RawColumn) : Bool :=
  serialSynonyms.contains (strLower (c.field_name.getD ""))

/-- Python truthiness chain w = col.get("width") or col.get("column_width") or 1.0:
a missing value and the number 0 are both falsy. -/
def widthOf (c : RawColumn) : Rat :=
  match c.width with
  | some w => if w = 0 then (match c.column_width with
      | some w2 => if w2 = 0 then 1 else w2
      | none => 1)
    else w
  | none => match c.column_width with
    | some w2 => if w2 = 0 then 1 else w2
    | none => 1

/-- col_def = col.copy(); col_def["width"] = float(w). -/
def normalizeColumn (c : RawColumn) : Column :=
  { field_name := c.field_name, display_label := c.display_label, width := widthOf c }

/-- The hardcoded two-column fallback of prepare_invoice_data. -/
def fallbackColumns : List Column :=
  [ { field_name := some "candidate_name", display_label := some "Candidate Name", width := 2 },
    { field_name := some "amount", display_label := some "Amount", width := 1 } ]

/-- Step 4 of prepare_invoice_data: resolve the effective column list from the
client column config.  The config argument is the extracted columns list of
column_definitions; none models an absent config row, and the source collapses
an empty/falsy column_definitions dict into the same empty list outcome. -/
def resolveColumns (config : Option (List RawColumn)) : List Column :=
  let columns := match config with
    | some raw => (raw.filter (fun c => !isSerialColumn c)).map normalizeColumn
    | none => []
  if columns.isEmpty then fallbackColumns else columns

/-- A candidate row (id, client and company links, attribute bag). -/
structure CandidateRec where
  id : Nat
  company_id : Nat
  client_id : Nat
  candidate_data : Bag
deriving DecidableEq, Repr

/-- Step 5 of prepare_invoice_data, body of the per-candidate loop: build one
line item.  idx is the 1-based enumerate counter.  The source replaces a falsy
bag by an empty dict, which on an association list is the identity. -/
def buildItem (columns : List Column) (idx : Nat) (c : CandidateRec) : Item :=
  let item : Item := itemIns [] (some "serial_no") (Value.vNum idx)
  let data := c.candidate_data
  let item := columns.foldl
    (fun it col => itemIns it col.field_name ((bagGet data col.field_name).getD (Value.vStr ""))) item
  itemIns item (some "amount") ((bagGet data (some "amount")).getD (Value.vNum 0))

/-- Step 5 of prepare_invoice_data: for index, cand in enumerate(candidates, start=1). -/
def buildLineItems (columns : List Column) (cands : List CandidateRec) : List Item :=
  (List.enumFrom 1 cands).map (fun p => buildItem columns p.1 p.2)

/-- A company row, with the fields prepare_invoice_data reads.  Optional columns
of the ORM model are Option; attributes the model does not declare at all
(tagline, address_line1, pan) make getattr return its supplied default, which
the company block construction inlines as constants. -/
structure CompanyRec where
  id : Nat
  name : String
  city : Option String
  state_name : Option String
  pincode : Option String
  pan_number : Option String
  banner_image_url : Option String
  stamp_url : Option String
  signature_url : Option String
  bank_name : Option String
  account_holder_name : Option String
  account_number : Option String
  ifsc_code : Option String
deriving DecidableEq, Repr

/-- A client row, with the fields prepare_invoice_data reads (all declared
non-nullable strings in app/models/client.py). -/
structure ClientRec where
  id : Nat
  company_id : Nat
  client_name : String
  client_address : String
  city : String
  state_name : String
  pincode : String
  gstin : String
  pan_number : String
deriving DecidableEq, Repr

/-- The company block of the aggregated snapshot dict. -/
structure CompanyBlock where
  name : String
  tagline : String
  address_line1 : String
  city : String
  state_name : String
  pincode : String
  pan : String
  banner_url : Option String
  stamp_url : Option String
  signature_url : Option String
  bank_name : String
  account_holder_name : String
  account_number : String
  ifsc_code : String
deriving DecidableEq, Repr

/-- The client block of the aggregated snapshot dict. -/
structure ClientBlock where
  name : String
  address : String
  address_line2 : String
  city : String
  state_name : String
  pincode : String
  gstin : String
  pan : String
deriving DecidableEq, Repr

/-- Python x or y for strings: empty string is falsy. -/
def strOr (a b : String) : String := if a = "" then b else a

/-- getattr(c, attr, "") or "" for an Optional column. -/
def optStr (o : Option String) : String := o.getD ""

/-- The company dict built by prepare_invoice_data step 6.  The Company model
declares neither tagline, address_line1 nor pan, so getattr yields the defaults
and pan falls through to pan_number. -/
def companyBlock (c : CompanyRec) : CompanyBlock :=
  { name := c.name
    tagline := ""
    address_line1 := ""
    city := optStr c.city
    state_name := optStr c.state_name
    pincode := optStr c.pincode
    pan := strOr "" (strOr (optStr c.pan_number) "")
    banner_url := c.banner_image_url
    stamp_url := c.stamp_url
    signature_url := c.signature_url
    bank_name := optStr c.bank_name
    account_holder_name := optStr c.account_holder_name
    account_number := optStr c.account_number
    ifsc_code := optStr c.ifsc_code }

/-- The client dict built by prepare_invoice_data step 6.  The Client model
declares neither address_line2 nor pan, so getattr yields the defaults and pan
falls through to pan_number or the literal N/A. -/
def clientBlock (c : ClientRec) : ClientBlock :=
  { name := c.client_name
    address := c.client_address
    address_line2 := ""
    city := c.city
    state_name := c.state_name
    pincode := c.pincode
    gstin := c.gstin
    pan := strOr "" (strOr c.pan_number "N/A") }

/-- Manual financial totals.  The subtotal, tax amounts and grand_total come
from app/schemas/invoice.py; the three rate fields are the extra attributes
app/services/invoice/service.py reads and writes (see header note). -/
structure ManualTotals where
  subtotal : Rat
  cgst_rate : Rat := 0
  cgst_amount : Rat := 0
  sgst_rate : Rat := 0
  sgst_amount : Rat := 0
  igst_rate : Rat := 0
  igst_amount : Rat := 0
  grand_total : Rat
deriving DecidableEq, Repr

/-- invoice_date.strftime of prepare_invoice_data, modelled as an injective
rendering of the opaque date value. -/
def formatDate (d : Nat) : String := toString d

/-- The aggregated snapshot dict returned by prepare_invoice_data. -/
structure Snapshot where
  invoice_number : String
  invoice_date : String
  company : CompanyBlock
  client : ClientBlock
  columns : List Column
  line_items : List Item
  financials : ManualTotals
deriving DecidableEq, Repr

/-- An invoice row (app/models/invoice.py plus the rate columns the service
writes; see header note).  candidate_ids keeps Nat ids (string forms elided). -/
structure InvoiceRec where
  id : Nat
  invoice_number : String
  invoice_date : Nat
  company_id : Nat
  client_id : Nat
  candidate_ids : List Nat
  invoice_snapshot : Option Snapshot
  subtotal : Rat
  cgst_rate : Rat
  cgst_amount : Rat
  sgst_rate : Rat
  sgst_amount : Rat
  igst_rate : Rat
  igst_amount : Rat
  grand_total : Rat
  file_url : String
  status : String
deriving DecidableEq, Repr

/-- The relational store: the rows the invoice subsystem touches.  configs maps
a client id to the extracted columns list of its ClientColumnConfig row. -/
structure DB where
  companies : List CompanyRec
  clients : List ClientRec
  candidates : List CandidateRec
  invoices : List InvoiceRec
  configs : List (Nat × List RawColumn)
  nextId : Nat
deriving DecidableEq, Repr

/-- The artifact content store: path to rendered content.  Rendering is
deterministic from the snapshot, so content is identified with the snapshot. -/
abbrev FS : Type := List (String × Snapshot)

/-- Write (create or overwrite) at a path. -/
def fsWrite (fs : FS) (path : String) (data : Snapshot) : FS :=
  if fs.any (fun p => p.1 = path) then
    fs.map (fun p => if p.1 = path then (path, data) else p)
  else
    fs ++ [(path, data)]

/-- os.path.exists / read-back at a path. -/
def fsGet (fs : FS) (path : String) : Option Snapshot :=
  (fs.find? (fun p => p.1 = path)).map (fun p => p.2)

/-- os.remove, silently succeeding when the file is absent (cleanup_invoice_file
swallows errors). -/
def fsErase (fs : FS) (path : String) : FS :=
  fs.filter (fun p => p.1 ≠ path)

/-- Errors surfaced by the service layer.  The first four are ValueError with
the indicated message; integrityError is the database unique-constraint
violation raised at commit time. -/
inductive Err where
  /-- ValueError: Invoice number N already exists. -/
  | conflict (invoice_number : String) : Err
  /-- ValueError: Company not found -/
  | companyNotFound : Err
  /-- ValueError: Client not found -/
  | clientNotFound : Err
  /-- ValueError: Only DRAFT invoices can be edited / finalized / deleted, or
  only GENERATED invoices can be marked as SENT. -/
  | invalidState (msg : String) : Err
  /-- sqlalchemy IntegrityError from the unique constraint at flush/commit. -/
  | integrityError : Err
deriving DecidableEq, Repr

/-- Outcome of a service operation: the final database and artifact store,
plus either the returned value or the raised error. -/
structure SvcResult (α : Type) where
  db : DB
  fs : FS
  out : Except Err α

/-- Python str.lstrip with a slash argument: drop every leading slash,
modelled per character. -/
def stripSlashes (s : String) : String :=
  String.mk (s.data.dropWhile (fun ch => ch = '/'))

/-- cleanup_invoice_file (app/services/invoice/files.py): strip the leading
slashes of the file_url and delete the file if it exists; errors are swallowed.
The falsy-url guard (empty string) deletes nothing because an empty path is
never an artifact path. -/
def cleanup_invoice_file (fs : FS) (file_url : String) : FS :=
  if file_url = "" then fs else fsErase fs (stripSlashes file_url)

/-- get_invoice_file_path (app/services/invoice/files.py): filename, filesystem
path and URL for a persisted invoice. -/
def get_invoice_file_path (invoice_number : String) : String × String × String :=
  let filename := invoice_number ++ ".docx"
  (filename, "static/invoices/" ++ filename, "/static/invoices/" ++ filename)

/-- get_temp_invoice_path (app/services/invoice/files.py): filename, filesystem
path and URL for a preview invoice.  No service code calls this helper. -/
def get_temp_invoice_path (invoice_number : String) : String × String × String :=
  let filename := invoice_number ++ "_preview.docx"
  (filename, "static/invoices/" ++ filename, "/static/invoices/" ++ filename)

/-- InvoiceGenerator.prepare_invoice_data (app/services/invoice_service.py):
aggregate company, client, candidates, column config and manual totals into the
snapshot dict.  Candidate retrieval by an unordered id-in-set query is modelled
as a filter of the store in storage order. -/
def prepare_invoice_data (db : DB) (company_id client_id : Nat)
    (candidate_ids : List Nat) (manual_totals : ManualTotals)
    (invoice_number : String) (invoice_date : Nat) : Except Err Snapshot :=
  match db.companies.find? (fun c => c.id = company_id) with
  | none => .error .companyNotFound
  | some company =>
    match db.clients.find? (fun c => c.id = client_id) with
    | none => .error .clientNotFound
    | some client =>
      let candidates := db.candidates.filter (fun c => candidate_ids.contains c.id)
      let config := (db.configs.find? (fun p => p.1 = client_id)).map (fun p => p.2)
      let columns := resolveColumns config
      .ok { invoice_number := invoice_number
            invoice_date := formatDate invoice_date
            company := companyBlock company
            client := clientBlock client
            columns := columns
            line_items := buildLineItems columns candidates
            financials := manual_totals }

/-- InvoiceGenerator.generate_docx (app/services/invoice_service.py): render the
snapshot, save the document at static/invoices/ under the filename derived from
the invoice number, and return the relative URL. -/
def generate_docx (fs : FS) (data : Snapshot) : FS × String :=
  let filename := data.invoice_number ++ ".docx"
  (fsWrite fs ("static/invoices/" ++ filename) data, "/static/invoices/" ++ filename)

/-- generate_invoice (app/services/invoice/service.py): per-company uniqueness
pre-check, aggregate, render, then insert and commit.  At commit the ORM model
(app/models/invoice.py line 26) declares invoice_number unique=True, a GLOBAL
unique constraint, so the INSERT is rejected whenever any existing row of any
company carries the number; the rejection rolls the insert back but the
rendered artifact has already been written. -/
def generate_invoice (db : DB) (fs : FS) (company_id client_id : Nat)
    (candidate_ids : List Nat) (manual_totals : ManualTotals)
    (invoice_number : String) (invoice_date : Nat) (status : String) :
    SvcResult InvoiceRec :=
  if db.invoices.any (fun i => i.company_id == company_id && i.invoice_number == invoice_number) then
    ⟨db, fs, .error (.conflict invoice_number)⟩
  else
    match prepare_invoice_data db company_id client_id candidate_ids manual_totals
        invoice_number invoice_date with
    | .error e => ⟨db, fs, .error e⟩
    | .ok data =>
      let rendered := generate_docx fs data
      let row : InvoiceRec :=
        { id := db.nextId
          invoice_number := invoice_number
          invoice_date := invoice_date
          company_id := company_id
          client_id := client_id
          candidate_ids := candidate_ids
          invoice_snapshot := some data
          subtotal := manual_totals.subtotal
          cgst_rate := manual_totals.cgst_rate
          cgst_amount := manual_totals.cgst_amount
          sgst_rate := manual_totals.sgst_rate
          sgst_amount := manual_totals.sgst_amount
          igst_rate := manual_totals.igst_rate
          igst_amount := manual_totals.igst_amount
          grand_total := manual_totals.grand_total
          file_url := rendered.2
          status := status }
      if db.invoices.any (fun i => i.invoice_number == invoice_number) then
        ⟨db, rendered.1, .error .integrityError⟩
      else
        ⟨{ db with invoices := db.invoices ++ [row], nextId := db.nextId + 1 },
         rendered.1, .ok row⟩

/-- The legacy module-level generate_invoice (app/services/invoice_service.py
lines 550-588): no uniqueness pre-check, no snapshot column (that variant of
the row predates it, modelled as none), rate columns left at their defaults,
status hardcoded GENERATED.  The same global unique constraint guards commit. -/
def legacy_generate_invoice (db : DB) (fs : FS) (company_id client_id : Nat)
    (candidate_ids : List Nat) (manual_totals : ManualTotals)
    (invoice_number : String) (invoice_date : Nat) : SvcResult InvoiceRec :=
  match prepare_invoice_data db company_id client_id candidate_ids manual_totals
      invoice_number invoice_date with
  | .error e => ⟨db, fs, .error e⟩
  | .ok data =>
    let rendered := generate_docx fs data
    let row : InvoiceRec :=
      { id := db.nextId
        invoice_number := invoice_number
        invoice_date := invoice_date
        company_id := company_id
        client_id := client_id
        candidate_ids := candidate_ids
        invoice_snapshot := none
        subtotal := manual_totals.subtotal
        cgst_rate := 0
        cgst_amount := manual_totals.cgst_amount
        sgst_rate := 0
        sgst_amount := manual_totals.sgst_amount
        igst_rate := 0
        igst_amount := manual_totals.igst_amount
        grand_total := manual_totals.grand_total
        file_url := rendered.2
        status := "GENERATED" }
    if db.invoices.any (fun i => i.invoice_number == invoice_number) then
      ⟨db, rendered.1, .error .integrityError⟩
    else
      ⟨{ db with invoices := db.invoices ++ [row], nextId := db.nextId + 1 },
       rendered.1, .ok row⟩

/-- send_invoice (app/services/invoice/service.py): must be GENERATED; an
already-SENT invoice is returned unchanged (idempotent); otherwise the status
becomes SENT, committed onto the row. -/
def send_invoice (db : DB) (fs : FS) (inv : InvoiceRec) : SvcResult InvoiceRec :=
  if inv.status ≠ "GENERATED" then
    if inv.status = "SENT" then
      ⟨db, fs, .ok inv⟩
    else
      ⟨db, fs, .error (.invalidState
        "Only GENERATED invoices can be marked as SENT. Finalize the draft first.")⟩
  else
    let row := { inv with status := "SENT" }
    ⟨{ db with invoices := db.invoices.map (fun r => if r.id = inv.id then row else r) },
     fs, .ok row⟩

/-- finalize_invoice (app/services/invoice/service.py): DRAFT becomes GENERATED. -/
def finalize_invoice (db : DB) (fs : FS) (inv : InvoiceRec) : SvcResult InvoiceRec :=
  if inv.status ≠ "DRAFT" then
    ⟨db, fs, .error (.invalidState "Only DRAFT invoices can be finalized.")⟩
  else
    let row := { inv with status := "GENERATED" }
    ⟨{ db with invoices := db.invoices.map (fun r => if r.id = inv.id then row else r) },
     fs, .ok row⟩

/-- The number-change pre-check of update_invoice: if invoice_number and
invoice_number != invoice.invoice_number (empty string is falsy), query rows of
the same company carrying the new number. -/
def updNumberConflict (db : DB) (inv : InvoiceRec) : Option String → Bool
  | some n => n != "" && n != inv.invoice_number
      && db.invoices.any (fun i => i.company_id == inv.company_id && i.invoice_number == n)
  | none => false

/-- The totals reconstruction of update_invoice when no totals are supplied:
read the row columns back (the `or 0.0` on the rate columns is the identity on
a Rat). -/
def reconstructTotals (inv : InvoiceRec) : ManualTotals :=
  { subtotal := inv.subtotal
    cgst_rate := inv.cgst_rate
    cgst_amount := inv.cgst_amount
    sgst_rate := inv.sgst_rate
    sgst_amount := inv.sgst_amount
    igst_rate := inv.igst_rate
    igst_amount := inv.igst_amount
    grand_total := inv.grand_total }

/-- invoice_number if invoice_number else invoice.invoice_number (empty string
is falsy). -/
def finalNumber (inv : InvoiceRec) : Option String → String
  | some nn => if nn = "" then inv.invoice_number else nn
  | none => inv.invoice_number

/-- The db.commit of update_invoice: the UPDATE is rejected by the GLOBAL
unique constraint on invoice_number whenever a different row of any company
carries the new number; otherwise the row is overwritten in place. -/
def update_commit (db : DB) (fs2 : FS) (inv row : InvoiceRec) : SvcResult InvoiceRec :=
  if db.invoices.any (fun i => i.id != inv.id && i.invoice_number == row.invoice_number) then
    ⟨db, fs2, .error .integrityError⟩
  else
    ⟨{ db with invoices := db.invoices.map (fun r => if r.id = inv.id then row else r) },
     fs2, .ok row⟩

/-- update_invoice (app/services/invoice/service.py): only DRAFT; optional
number change re-checks per-company uniqueness excluding the own row; then the
old artifact is DELETED, the snapshot re-aggregated, the document re-rendered,
and the row overwritten and committed.  A commit rejection rolls the row
changes back, but the old artifact is already gone and the new one written. -/
def update_invoice (db : DB) (fs : FS) (inv : InvoiceRec)
    (candidate_ids : Option (List Nat)) (manual_totals : Option ManualTotals)
    (invoice_date : Option Nat) (invoice_number : Option String) :
    SvcResult InvoiceRec :=
  if inv.status ≠ "DRAFT" then
    ⟨db, fs, .error (.invalidState "Only DRAFT invoices can be edited.")⟩
  else if updNumberConflict db inv invoice_number then
    ⟨db, fs, .error (.conflict (invoice_number.getD ""))⟩
  else
    match prepare_invoice_data db inv.company_id inv.client_id
        (candidate_ids.getD inv.candidate_ids) (manual_totals.getD (reconstructTotals inv))
        (finalNumber inv invoice_number) (invoice_date.getD inv.invoice_date) with
    | .error e => ⟨db, cleanup_invoice_file fs inv.file_url, .error e⟩
    | .ok data =>
      update_commit db (generate_docx (cleanup_invoice_file fs inv.file_url) data).1 inv
        { inv with
          invoice_number := finalNumber inv invoice_number
          invoice_date := invoice_date.getD inv.invoice_date
          candidate_ids := candidate_ids.getD inv.candidate_ids
          invoice_snapshot := some data
          file_url := (generate_docx (cleanup_invoice_file fs inv.file_url) data).2
          subtotal := (manual_totals.getD (reconstructTotals inv)).subtotal
          cgst_rate := (manual_totals.getD (reconstructTotals inv)).cgst_rate
          cgst_amount := (manual_totals.getD (reconstructTotals inv)).cgst_amount
          sgst_rate := (manual_totals.getD (reconstructTotals inv)).sgst_rate
          sgst_amount := (manual_totals.getD (reconstructTotals inv)).sgst_amount
          igst_rate := (manual_totals.getD (reconstructTotals inv)).igst_rate
          igst_amount := (manual_totals.getD (reconstructTotals inv)).igst_amount
          grand_total := (manual_totals.getD (reconstructTotals inv)).grand_total }

/-- preview_draft_invoice (app/services/invoice/service.py): aggregate and
render through the very same generate_docx, creating no row; the snapshot is
returned with the file_url attached. -/
def preview_draft_invoice (db : DB) (fs : FS) (company_id client_id : Nat)
    (candidate_ids : List Nat) (manual_totals : ManualTotals)
    (invoice_number : String) (invoice_date : Nat) : SvcResult (Snapshot × String) :=
  match prepare_invoice_data db company_id client_id candidate_ids manual_totals
      invoice_number invoice_date with
  | .error e => ⟨db, fs, .error e⟩
  | .ok data =>
    let rendered := generate_docx fs data
    ⟨db, rendered.1, .ok (data, rendered.2)⟩

/-- delete_draft_invoice (app/services/invoice/service.py): only DRAFT; delete
the artifact, then the row. -/
def delete_draft_invoice (db : DB) (fs : FS) (inv : InvoiceRec) : SvcResult Unit :=
  if inv.status ≠ "DRAFT" then
    ⟨db, fs, .error (.invalidState "Only DRAFT invoices can be deleted.")⟩
  else
    let fs1 := cleanup_invoice_file fs inv.file_url
    ⟨{ db with invoices := db.invoices.filter (fun r => r.id ≠ inv.id) }, fs1, .ok ()⟩

/-- The spec wording of the serial-number filter: field_name case-insensitively
matches one of the fixed synonyms. -/
def specSerialMatch (s : String) : Bool :=
  serialSynonyms.any (fun t => strLower s == strLower t)

/- Concrete fixtures used by witnesses and counterexamples. -/

def mt0 : ManualTotals := { subtotal := 100, grand_total := 118 }

def company1 : CompanyRec :=
  { id := 1, name := "Acme", city := none, state_name := none, pincode := none,
    pan_number := none, banner_image_url := none, stamp_url := none, signature_url := none,
    bank_name := none, account_holder_name := none, account_number := none, ifsc_code := none }

def company2 : CompanyRec := { company1 with id := 2, name := "Globex" }

def client10 : ClientRec :=
  { id := 10, company_id := 1, client_name := "Athena", client_address := "Cyber City",
    city := "Gurgaon", state_name := "Haryana", pincode := "122002",
    gstin := "06AAAAA0000A1Z5", pan_number := "AAAAA0000A" }

def client20 : ClientRec := { client10 with id := 20, company_id := 2 }

/-- Two tenants, one client each, no invoices yet. -/
def db0 : DB :=
  { companies := [company1, company2], clients := [client10, client20],
    candidates := [], invoices := [], configs := [], nextId := 100 }

def fs0 : FS := []

/-- Database and store after a first successful generate of INV-1 under company 1. -/
def db1 : DB := (generate_invoice db0 fs0 1 10 [] mt0 "INV-1" 5 "DRAFT").db

def fs1 : FS := (generate_invoice db0 fs0 1 10 [] mt0 "INV-1" 5 "DRAFT").fs

def snapB : Snapshot :=
  { invoice_number := "INV-1", invoice_date := "4",
    company := companyBlock company1, client := clientBlock client10,
    columns := fallbackColumns, line_items := [], financials := mt0 }

def snapA : Snapshot :=
  { snapB with invoice_number := "INV-2", invoice_date := "3", company := companyBlock company2 }

/-- A GENERATED invoice of company 2 carrying number INV-2. -/
def invA : InvoiceRec :=
  { id := 20, invoice_number := "INV-2", invoice_date := 3, company_id := 2, client_id := 20,
    candidate_ids := [], invoice_snapshot := some snapA, subtotal := 100, cgst_rate := 0,
    cgst_amount := 0, sgst_rate := 0, sgst_amount := 0, igst_rate := 0, igst_amount := 0,
    grand_total := 118, file_url := "/static/invoices/INV-2.docx", status := "GENERATED" }

/-- A DRAFT invoice of company 1 carrying number INV-1. -/
def invB : InvoiceRec :=
  { invA with
    id := 21
    invoice_number := "INV-1"
    invoice_date := 4
    company_id := 1
    client_id := 10
    invoice_snapshot := some snapB
    file_url := "/static/invoices/INV-1.docx"
    status := "DRAFT" }

/-- A SENT invoice of company 1. -/
def invS : InvoiceRec :=
  { invB with
    id := 22
    invoice_number := "INV-3"
    file_url := "/static/invoices/INV-3.docx"
    status := "SENT" }

def dbX : DB := { db0 with invoices := [invA, invB], nextId := 30 }

def fsX : FS := [("static/invoices/INV-2.docx", snapA), ("static/invoices/INV-1.docx", snapB)]

/- Column-config fixtures. -/

def rawAmount : RawColumn :=
  { field_name := some "amount", display_label := some "Amount",
    width := some 1, column_width := none }

def rawName : RawColumn :=
  { field_name := some "candidate_name", display_label := some "Name",
    width := none, column_width := some 2 }

def rawSerial : RawColumn :=
  { field_name := some "S.No", display_label := some "S.No",
    width := some 1, column_width := none }

def cand50 : CandidateRec := { id := 50, company_id := 1, client_id := 10, candidate_data := [] }

def cand51 : CandidateRec :=
  { id := 51, company_id := 1, client_id := 10,
    candidate_data := [("candidate_name", Value.vStr "J Doe"), ("amount", Value.vNum 5000)] }

/-- Tenants with candidates and a column config holding a serial synonym, a
name column and an amount column for client 10. -/
def dbC : DB :=
  { db0 with candidates := [cand50, cand51], configs := [(10, [rawSerial, rawName, rawAmount])] }

/-- Like dbC but the configured columns are amount only. -/
def dbC5 : DB := { dbC with configs := [(10, [rawAmount])] }

def dummySnap : Snapshot := snapB

def dummyRow : InvoiceRec := invA

/-- The row produced by the first successful generate on db0. -/
def genRow0 : InvoiceRec :=
  ((generate_invoice db0 fs0 1 10 [] mt0 "INV-1" 5 "DRAFT").out.toOption).getD dummyRow

/-- The snapshot produced by aggregation over dbC with both candidates. -/
def snap5 : Snapshot :=
  ((prepare_invoice_data dbC 1 10 [50, 51] mt0 "INV-5" 9).toOption).getD dummySnap

/-- A second DRAFT invoice of company 1, number INV-4. -/
def invB2 : InvoiceRec :=
  { invB with
    id := 23
    invoice_number := "INV-4"
    file_url := "/static/invoices/INV-4.docx" }

/-- Company 1 holding two DRAFT invoices, INV-1 and INV-4. -/
def dbY : DB := { db0 with invoices := [invB, invB2], nextId := 40 }

/-- A store already holding a persisted artifact for number INV-9. -/
def fsP : FS := [("static/invoices/INV-9.docx", snapB)]

/-- The pair returned by a successful preview of INV-9 over db0. -/
def previewPair9 : Snapshot × String :=
  ((preview_draft_invoice db0 fsP 1 10 [] mt0 "INV-9" 7).out.toOption).getD (dummySnap, "")

/- Helper lemmas on the dict model. -/

theorem itemGet_map_self (l : Item) (k : Option String) (v : Value)
    (h : l.any (fun p => p.1 = k) = true) :
    itemGet (l.map (fun p => if p.1 = k then (k, v) else p)) k = some v := by
  induction l with
  | nil => simp at h
  | cons p t ih =>
    by_cases hp : p.1 = k
    · simp [itemGet, List.find?, hp]
    · simp only [List.any_cons, decide_eq_true_eq, Bool.or_eq_true, hp, false_or] at h
      simpa [itemGet, List.find?, hp] using ih h

theorem itemGet_map_other (l : Item) (k k' : Option String) (v : Value) (h : k' ≠ k) :
    itemGet (l.map (fun p => if p.1 = k then (k, v) else p)) k' = itemGet l k' := by
  have hkk : k ≠ k' := Ne.symm h
  induction l with
  | nil => simp [itemGet]
  | cons p t ih =>
    by_cases hp : p.1 = k
    · have hpk : p.1 ≠ k' := by rw [hp]; exact hkk
      simpa [itemGet, List.find?, hp, hkk, hpk] using ih
    · by_cases hp' : p.1 = k'
      · simp [itemGet, List.find?, hp, hp', h]
      · simpa [itemGet, List.find?, hp, hp'] using ih

theorem itemGet_append_single_self (l : Item) (k : Option String) (v : Value)
    (h : l.any (fun p => p.1 = k) = false) :
    itemGet (l ++ [(k, v)]) k = some v := by
  induction l with
  | nil => simp [itemGet, List.find?]
  | cons p t ih =>
    simp only [List.any_cons, Bool.or_eq_false_iff, decide_eq_false_iff_not] at h
    simpa [itemGet, List.find?, h.1] using ih (by simpa using h.2)

theorem itemGet_append_single_other (l : Item) (k k' : Option String) (v : Value)
    (h : k' ≠ k) :
    itemGet (l ++ [(k, v)]) k' = itemGet l k' := by
  have hkk : k ≠ k' := Ne.symm h
  induction l with
  | nil => simp [itemGet, List.find?, hkk]
  | cons p t ih =>
    by_cases hp : p.1 = k'
    · simp [itemGet, List.find?, hp]
    · simpa [itemGet, List.find?, hp] using ih

theorem itemGet_itemIns_self (l : Item) (k : Option String) (v : Value) :
    itemGet (itemIns l k v) k = some v := by
  unfold itemIns
  by_cases h : l.any (fun p => p.1 = k) = true
  · simpa [h] using itemGet_map_self l k v h
  · simp only [Bool.not_eq_true] at h
    simpa [h] using itemGet_append_single_self l k v h

theorem itemGet_itemIns_ne (l : Item) (k k' : Option String) (v : Value) (h : k' ≠ k) :
    itemGet (itemIns l k v) k' = itemGet l k' := by
  unfold itemIns
  by_cases hany : l.any (fun p => p.1 = k) = true
  · simpa [hany] using itemGet_map_other l k k' v h
  · simp only [Bool.not_eq_true] at hany
    simpa [hany] using itemGet_append_single_other l k k' v h

/-- The per-candidate column loop writes a value depending only on the key;
keys not written by any column are untouched. -/
theorem itemGet_foldIns_not_mem (g : Option String → Value) (cols : List Column)
    (l : Item) (k : Option String) (h : ∀ col ∈ cols, col.field_name ≠ k) :
    itemGet (cols.foldl (fun it col => itemIns it col.field_name (g col.field_name)) l) k
      = itemGet l k := by
  induction cols generalizing l with
  | nil => rfl
  | cons c cs ih =>
    rw [List.foldl_cons]
    rw [ih _ (fun col hc => h col (List.mem_cons_of_mem c hc))]
    exact itemGet_itemIns_ne l c.field_name k (g c.field_name)
      (Ne.symm (h c (List.mem_cons_self c cs)))

/-- A key written by at least one column ends at the key-determined value. -/
theorem itemGet_foldIns_mem (g : Option String → Value) (cols : List Column)
    (l : Item) (k : Option String) (h : ∃ col ∈ cols, col.field_name = k) :
    itemGet (cols.foldl (fun it col => itemIns it col.field_name (g col.field_name)) l) k
      = some (g k) := by
  induction cols generalizing l with
  | nil => exact absurd h (by simp)
  | cons c cs ih =>
    rw [List.foldl_cons]
    by_cases hcs : ∃ col ∈ cs, col.field_name = k
    · exact ih _ hcs
    · have hc : c.field_name = k := by
        rcases h with ⟨col, hcol, hk⟩
        rcases List.mem_cons.mp hcol with hh | hh
        · exact hh ▸ hk
        · exact absurd ⟨col, hh, hk⟩ hcs
      rw [itemGet_foldIns_not_mem g cs _ k (by
        intro col hcol
        exact fun he => hcs ⟨col, hcol, he⟩)]
      rw [hc]
      exact itemGet_itemIns_self l k (g k)

/-- The always-exposed amount assignment: data.get("amount", 0). -/
theorem buildItem_amount (cols : List Column) (idx : Nat) (c : CandidateRec) :
    itemGet (buildItem cols idx c) (some "amount")
      = some ((bagGet c.candidate_data (some "amount")).getD (Value.vNum 0)) := by
  unfold buildItem
  exact itemGet_itemIns_self ..

/-- The 1-based serial number survives the column writes whenever no column is
named serial_no (the resolver filters those out). -/
theorem buildItem_serial (cols : List Column) (idx : Nat) (c : CandidateRec)
    (h : ∀ col ∈ cols, col.field_name ≠ some "serial_no") :
    itemGet (buildItem cols idx c) (some "serial_no") = some (Value.vNum idx) := by
  unfold buildItem
  rw [itemGet_itemIns_ne _ _ _ _ (by simp)]
  rw [itemGet_foldIns_not_mem (fun k => (bagGet c.candidate_data k).getD (Value.vStr ""))
    cols _ (some "serial_no") h]
  exact itemGet_itemIns_self ..

/-- A configured field other than amount projects the bag value, defaulting to
the empty string. -/
theorem buildItem_field (cols : List Column) (idx : Nat) (c : CandidateRec) (f : String)
    (hf : ∃ col ∈ cols, col.field_name = some f) (hne : f ≠ "amount") :
    itemGet (buildItem cols idx c) (some f)
      = some ((bagGet c.candidate_data (some f)).getD (Value.vStr "")) := by
  unfold buildItem
  rw [itemGet_itemIns_ne _ _ _ _ (by simp [hne])]
  exact itemGet_foldIns_mem (fun k => (bagGet c.candidate_data k).getD (Value.vStr ""))
    cols _ (some f) hf

/-- Every configured field name is a present key of the line item. -/
theorem buildItem_isSome (cols : List Column) (idx : Nat) (c : CandidateRec) (f : String)
    (hf : ∃ col ∈ cols, col.field_name = some f) :
    (itemGet (buildItem cols idx c) (some f)).isSome = true := by
  by_cases hne : f = "amount"
  · subst hne
    rw [buildItem_amount]
    rfl
  · rw [buildItem_field cols idx c f hf hne]
    rfl

theorem buildLineItems_length (cols : List Column) (cands : List CandidateRec) :
    (buildLineItems cols cands).length = cands.length := by
  unfold buildLineItems
  simp [List.enumFrom_length]

theorem buildLineItems_getElem? (cols : List Column) (cands : List CandidateRec) (i : Nat) :
    (buildLineItems cols cands)[i]? = (cands[i]?).map (fun c => buildItem cols (1 + i) c) := by
  unfold buildLineItems
  simp only [List.getElem?_map, List.getElem?_enumFrom]
  cases cands[i]? <;> rfl

/-- The source filter (lowercase then membership in the lowercase literal list)
agrees with the spec reading (case-insensitive match against the synonym set). -/
theorem isSerialColumn_eq_spec (c : RawColumn) :
    isSerialColumn c = specSerialMatch (c.field_name.getD "") := by
  have h1 : strLower "sr_no" = "sr_no" := by decide
  have h2 : strLower "serial_no" = "serial_no" := by decide
  have h3 : strLower "s_no" = "s_no" := by decide
  have h4 : strLower "s.no" = "s.no" := by decide
  unfold isSerialColumn specSerialMatch serialSynonyms
  simp only [List.any_cons, List.any_nil]
  rw [h1, h2, h3, h4]
  simp only [List.contains, List.elem]
  cases hb1 : strLower (c.field_name.getD "") == "sr_no" <;>
    cases hb2 : strLower (c.field_name.getD "") == "serial_no" <;>
      cases hb3 : strLower (c.field_name.getD "") == "s_no" <;>
        cases hb4 : strLower (c.field_name.getD "") == "s.no" <;>
          simp [hb1, hb2, hb3, hb4]

/-- normalizeColumn keeps the identifying fields of the configured column. -/
theorem normalizeColumn_fields (c : RawColumn) :
    (normalizeColumn c).field_name = c.field_name
    ∧ (normalizeColumn c).display_label = c.display_label := ⟨rfl, rfl⟩

/-- No effective column carries the field name serial_no: the resolver filters
serial synonyms and the fallback columns are candidate_name and amount. -/
theorem resolveColumns_no_serial (cfg : Option (List RawColumn)) (col : Column)
    (h : col ∈ resolveColumns cfg) : col.field_name ≠ some "serial_no" := by
  unfold resolveColumns at h
  intro hser
  rcases cfg with _ | raws
  · simp only [List.isEmpty_nil, if_true] at h
    simp only [fallbackColumns, List.mem_cons, List.not_mem_nil, or_false] at h
    rcases h with h | h <;> (rw [h] at hser; simp at hser)
  · simp only at h
    by_cases hemp :
        ((raws.filter (fun c => !isSerialColumn c)).map normalizeColumn).isEmpty = true
    · rw [if_pos hemp] at h
      simp only [fallbackColumns, List.mem_cons, List.not_mem_nil, or_false] at h
      rcases h with h | h <;> (rw [h] at hser; simp at hser)
    · rw [if_neg hemp] at h
      rcases List.mem_map.mp h with ⟨c, hc, hnorm⟩
      have hkeep := (List.mem_filter.mp hc).2
      have hcf : c.field_name = some "serial_no" := by
        rw [← (normalizeColumn_fields c).1, hnorm, hser]
      rw [Bool.not_eq_eq_eq_not, Bool.not_true] at hkeep
      rw [isSerialColumn_eq_spec, hcf] at hkeep
      simp [specSerialMatch, serialSynonyms] at hkeep

/-- Destructure a successful aggregation into its snapshot fields. -/
theorem prepare_ok_fields (db : DB) (cid clid : Nat) (cands : List Nat)
    (mt : ManualTotals) (n : String) (d : Nat) (S : Snapshot)
    (h : prepare_invoice_data db cid clid cands mt n d = .ok S) :
    S.columns = resolveColumns ((db.configs.find? (fun p => p.1 = clid)).map (fun p => p.2))
    ∧ S.line_items
        = buildLineItems S.columns (db.candidates.filter (fun c => cands.contains c.id))
    ∧ S.financials = mt
    ∧ S.invoice_number = n := by
  unfold prepare_invoice_data at h
  rcases hco : db.companies.find? (fun c => c.id = cid) with _ | company
  · rw [hco] at h; exact absurd h (by simp)
  · rw [hco] at h
    rcases hcl : db.clients.find? (fun c => c.id = clid) with _ | client
    · rw [hcl] at h; exact absurd h (by simp)
    · rw [hcl] at h
      simp only [Except.ok.injEq] at h
      subst h
      exact ⟨rfl, rfl, rfl, rfl⟩

/- Claim theorems. -/

/-- Claim C1: the claim states invoice-number uniqueness is scoped per company,
so that generate with the same number succeeds under each of two distinct
companies.  The code disagrees: after a successful generate of INV-1 under
company 1, the generate of INV-1 under company 2 passes the per-company
pre-check but is rejected at commit by the GLOBAL unique constraint the ORM
model declares on invoice_number, surfacing an IntegrityError instead of
succeeding.  The same-company part of the claim does hold: the retry under
company 1 fails with the Conflict error and creates no invoice. -/
theorem C1_per_company_uniqueness_code_bug :
    ((generate_invoice db0 fs0 1 10 [] mt0 "INV-1" 5 "DRAFT").out.toOption).isSome = true
    ∧ (generate_invoice db1 fs1 2 20 [] mt0 "INV-1" 6 "DRAFT").out = .error .integrityError
    ∧ (generate_invoice db1 fs1 1 10 [] mt0 "INV-1" 6 "DRAFT").out
        = .error (.conflict "INV-1")
    ∧ (generate_invoice db1 fs1 1 10 [] mt0 "INV-1" 6 "DRAFT").db = db1 :=
  ⟨rfl, rfl, rfl, rfl⟩

/-- Claim C2: update, delete and finalize on an invoice whose status is not
DRAFT fail with the InvalidState error and leave the database (row and
snapshot) and the artifact store unchanged. -/
theorem C2_nondraft_operations_fail (db : DB) (fs : FS) (inv : InvoiceRec)
    (h : inv.status ≠ "DRAFT") (ocands : Option (List Nat)) (omt : Option ManualTotals)
    (od : Option Nat) (onum : Option String) :
    update_invoice db fs inv ocands omt od onum
      = ⟨db, fs, .error (.invalidState "Only DRAFT invoices can be edited.")⟩
    ∧ delete_draft_invoice db fs inv
      = ⟨db, fs, .error (.invalidState "Only DRAFT invoices can be deleted.")⟩
    ∧ finalize_invoice db fs inv
      = ⟨db, fs, .error (.invalidState "Only DRAFT invoices can be finalized.")⟩ := by
  unfold update_invoice delete_draft_invoice finalize_invoice
  refine ⟨?_, ?_, ?_⟩ <;> rw [if_pos h]

/-- Witness for C2 at the GENERATED invoice invA. -/
theorem C2_nondraft_operations_fail_witness :
    update_invoice dbX fsX invA none none none none
      = ⟨dbX, fsX, .error (.invalidState "Only DRAFT invoices can be edited.")⟩
    ∧ delete_draft_invoice dbX fsX invA
      = ⟨dbX, fsX, .error (.invalidState "Only DRAFT invoices can be deleted.")⟩
    ∧ finalize_invoice dbX fsX invA
      = ⟨dbX, fsX, .error (.invalidState "Only DRAFT invoices can be finalized.")⟩ :=
  C2_nondraft_operations_fail dbX fsX invA (by decide) none none none none

/-- Claim C6: send on a SENT invoice returns that same invoice with every field
unchanged and raises no error; send on a GENERATED invoice sets status to SENT. -/
theorem C6_send_idempotent_on_sent (db : DB) (fs : FS) (inv : InvoiceRec) :
    (inv.status = "SENT" → send_invoice db fs inv = ⟨db, fs, .ok inv⟩)
    ∧ (inv.status = "GENERATED" →
        (send_invoice db fs inv).out = .ok { inv with status := "SENT" }) := by
  constructor
  · intro h
    unfold send_invoice
    rw [if_pos (by rw [h]; decide), if_pos h]
  · intro h
    unfold send_invoice
    rw [if_neg (by rw [h]; simp)]

/-- Witness for C6 at the SENT invoice invS and the GENERATED invoice invA. -/
theorem C6_send_idempotent_on_sent_witness :
    send_invoice dbX fsX invS = ⟨dbX, fsX, .ok invS⟩
    ∧ (send_invoice dbX fsX invA).out = .ok { invA with status := "SENT" } :=
  ⟨(C6_send_idempotent_on_sent dbX fsX invS).1 (by decide),
   (C6_send_idempotent_on_sent dbX fsX invA).2 (by decide)⟩

/-- Claim C9: finalize on a DRAFT invoice and send on a GENERATED invoice
modify only the status field; every other field of the returned row equals the
field of the input row. -/
theorem C9_finalize_send_status_only (db : DB) (fs : FS) (inv : InvoiceRec) :
    (inv.status = "DRAFT" →
      ∀ row, (finalize_invoice db fs inv).out = .ok row →
        row.status = "GENERATED"
        ∧ row.invoice_number = inv.invoice_number ∧ row.invoice_date = inv.invoice_date
        ∧ row.client_id = inv.client_id ∧ row.company_id = inv.company_id
        ∧ row.candidate_ids = inv.candidate_ids
        ∧ row.invoice_snapshot = inv.invoice_snapshot
        ∧ row.file_url = inv.file_url ∧ row.subtotal = inv.subtotal
        ∧ row.cgst_amount = inv.cgst_amount ∧ row.sgst_amount = inv.sgst_amount
        ∧ row.igst_amount = inv.igst_amount ∧ row.grand_total = inv.grand_total)
    ∧ (inv.status = "GENERATED" →
      ∀ row, (send_invoice db fs inv).out = .ok row →
        row.status = "SENT"
        ∧ row.invoice_number = inv.invoice_number ∧ row.invoice_date = inv.invoice_date
        ∧ row.client_id = inv.client_id ∧ row.company_id = inv.company_id
        ∧ row.candidate_ids = inv.candidate_ids
        ∧ row.invoice_snapshot = inv.invoice_snapshot
        ∧ row.file_url = inv.file_url ∧ row.subtotal = inv.subtotal
        ∧ row.cgst_amount = inv.cgst_amount ∧ row.sgst_amount = inv.sgst_amount
        ∧ row.igst_amount = inv.igst_amount ∧ row.grand_total = inv.grand_total) := by
  constructor
  · intro h row hrow
    unfold finalize_invoice at hrow
    rw [if_neg (by rw [h]; simp)] at hrow
    have hr := Except.ok.inj hrow
    subst hr
    exact ⟨rfl, rfl, rfl, rfl, rfl, rfl, rfl, rfl, rfl, rfl, rfl, rfl, rfl⟩
  · intro h row hrow
    unfold send_invoice at hrow
    rw [if_neg (by rw [h]; simp)] at hrow
    have hr := Except.ok.inj hrow
    subst hr
    exact ⟨rfl, rfl, rfl, rfl, rfl, rfl, rfl, rfl, rfl, rfl, rfl, rfl, rfl⟩

/-- Witness for C9 at the DRAFT invoice invB and the GENERATED invoice invA. -/
theorem C9_finalize_send_status_only_witness :
    ({ invB with status := "GENERATED" } : InvoiceRec).invoice_number = invB.invoice_number
    ∧ ({ invA with status := "SENT" } : InvoiceRec).grand_total = invA.grand_total :=
  ⟨((C9_finalize_send_status_only dbX fsX invB).1 (by decide)
      { invB with status := "GENERATED" } rfl).2.1,
   (((C9_finalize_send_status_only dbX fsX invA).2 (by decide)
      { invA with status := "SENT" } rfl).2.2.2.2.2.2.2.2.2.2.2.2)⟩

/-- Claim C3: whenever a generate (new service or legacy module) or an update
carrying explicit manual totals succeeds, the financial fields persisted on the
invoice row are exactly the caller-supplied totals; grand_total in particular
is stored verbatim, never recomputed. -/
theorem C3_totals_stored_verbatim (db : DB) (fs : FS) (cid clid : Nat)
    (cands : List Nat) (mt : ManualTotals) (n : String) (d : Nat) (st : String)
    (inv : InvoiceRec) (ocands : Option (List Nat)) (od : Option Nat)
    (onum : Option String) (row : InvoiceRec) :
    ((generate_invoice db fs cid clid cands mt n d st).out = .ok row →
      row.subtotal = mt.subtotal ∧ row.cgst_amount = mt.cgst_amount
      ∧ row.sgst_amount = mt.sgst_amount ∧ row.igst_amount = mt.igst_amount
      ∧ row.grand_total = mt.grand_total)
    ∧ ((legacy_generate_invoice db fs cid clid cands mt n d).out = .ok row →
      row.subtotal = mt.subtotal ∧ row.cgst_amount = mt.cgst_amount
      ∧ row.sgst_amount = mt.sgst_amount ∧ row.igst_amount = mt.igst_amount
      ∧ row.grand_total = mt.grand_total)
    ∧ ((update_invoice db fs inv ocands (some mt) od onum).out = .ok row →
      row.subtotal = mt.subtotal ∧ row.cgst_amount = mt.cgst_amount
      ∧ row.sgst_amount = mt.sgst_amount ∧ row.igst_amount = mt.igst_amount
      ∧ row.grand_total = mt.grand_total) := by
  refine ⟨?_, ?_, ?_⟩
  · intro h
    unfold generate_invoice at h
    split at h
    · exact absurd h (by simp)
    · split at h
      · exact absurd h (by simp)
      · split at h
        · exact absurd h (by simp)
        · have hr := Except.ok.inj h
          subst hr
          exact ⟨rfl, rfl, rfl, rfl, rfl⟩
  · intro h
    unfold legacy_generate_invoice at h
    split at h
    · exact absurd h (by simp)
    · split at h
      · exact absurd h (by simp)
      · have hr := Except.ok.inj h
        subst hr
        exact ⟨rfl, rfl, rfl, rfl, rfl⟩
  · intro h
    unfold update_invoice at h
    by_cases h1 : inv.status ≠ "DRAFT"
    · rw [if_pos h1] at h
      exact absurd h (by simp)
    · rw [if_neg h1] at h
      by_cases h2 : updNumberConflict db inv onum = true
      · rw [if_pos h2] at h
        exact absurd h (by simp)
      · rw [if_neg h2] at h
        split at h
        · exact absurd h (by simp)
        · unfold update_commit at h
          split at h
          · exact absurd h (by simp)
          · have hr := Except.ok.inj h
            subst hr
            exact ⟨rfl, rfl, rfl, rfl, rfl⟩

/-- Witness for C3 at the first successful generate over db0. -/
theorem C3_totals_stored_verbatim_witness :
    genRow0.subtotal = mt0.subtotal ∧ genRow0.cgst_amount = mt0.cgst_amount
    ∧ genRow0.sgst_amount = mt0.sgst_amount ∧ genRow0.igst_amount = mt0.igst_amount
    ∧ genRow0.grand_total = mt0.grand_total :=
  (C3_totals_stored_verbatim db0 fs0 1 10 [] mt0 "INV-1" 5 "DRAFT"
    invA none none none genRow0).1 rfl

/-- Claim C4: the effective column list is the configured list minus every
column whose field name case-insensitively matches a serial-number synonym
(the spec-side predicate specSerialMatch), when that filtered list is
non-empty; with no config, or when the filtered list is empty, it is exactly
the two-column fallback.  Normalization only resolves the width alias and
keeps the identifying fields. -/
theorem C4_effective_columns (raws : List RawColumn) :
    (resolveColumns none = fallbackColumns)
    ∧ (raws.filter (fun c => !specSerialMatch (c.field_name.getD "")) ≠ [] →
        resolveColumns (some raws)
          = (raws.filter (fun c => !specSerialMatch (c.field_name.getD ""))).map
              normalizeColumn)
    ∧ (raws.filter (fun c => !specSerialMatch (c.field_name.getD "")) = [] →
        resolveColumns (some raws) = fallbackColumns)
    ∧ (∀ c : RawColumn, (normalizeColumn c).field_name = c.field_name
        ∧ (normalizeColumn c).display_label = c.display_label) := by
  have hfil : raws.filter (fun c => !isSerialColumn c)
      = raws.filter (fun c => !specSerialMatch (c.field_name.getD "")) := by
    apply List.filter_congr
    intro c _
    rw [isSerialColumn_eq_spec]
  have hres : resolveColumns (some raws)
      = if ((raws.filter (fun c => !isSerialColumn c)).map normalizeColumn).isEmpty
        then fallbackColumns
        else (raws.filter (fun c => !isSerialColumn c)).map normalizeColumn := rfl
  refine ⟨rfl, ?_, ?_, fun c => ⟨rfl, rfl⟩⟩
  · intro hne
    rw [hres, hfil, if_neg (by simp [List.isEmpty_iff, hne])]
  · intro heq
    rw [hres, hfil, heq, if_pos (by simp)]

/-- Witness for C4 at a config holding a serial synonym plus two real columns. -/
theorem C4_effective_columns_witness :
    resolveColumns (some [rawSerial, rawName, rawAmount])
      = ([rawSerial, rawName, rawAmount].filter
          (fun c => !specSerialMatch (c.field_name.getD ""))).map normalizeColumn :=
  (C4_effective_columns [rawSerial, rawName, rawAmount]).2.1 (by decide)

/-- Claim C5 counterexample: the claim asserts that a configured field name
absent from the candidate attribute bag renders as the empty string.  With
amount itself among the configured columns and a candidate whose bag is empty,
the aggregated line item carries the number 0 at the amount key, not the empty
string: the always-exposed amount assignment overwrites the projection. -/
theorem C5_line_items_counterexample :
    (prepare_invoice_data dbC5 1 10 [50] mt0 "INV-6" 9).map
        (fun S => S.line_items.map (fun it => itemGet it (some "amount")))
      = .ok [some (Value.vNum 0)]
    ∧ (prepare_invoice_data dbC5 1 10 [50] mt0 "INV-6" 9).map
        (fun S => S.line_items.map (fun it => itemGet it (some "amount")))
      ≠ .ok [some (Value.vStr "")]
    ∧ (prepare_invoice_data dbC5 1 10 [50] mt0 "INV-6" 9).map (fun S => S.columns)
      = .ok [normalizeColumn rawAmount] := by
  have h1 : (prepare_invoice_data dbC5 1 10 [50] mt0 "INV-6" 9).map
      (fun S => S.line_items.map (fun it => itemGet it (some "amount")))
      = .ok [some (Value.vNum 0)] := rfl
  refine ⟨h1, ?_, rfl⟩
  intro hcontra
  rw [h1] at hcontra
  simp at hcontra

/-- Claim C5 as amended: for every aggregation, line items follow the
candidates in render order with 1-based consecutive serial numbers; every item
carries a key for every configured field name; a configured field OTHER THAN
amount renders the bag value, defaulting to the empty string when absent; and
the amount key is always present, defaulting to the number 0 when absent (the
always-exposed amount assignment overwrites the empty-string projection). -/
theorem C5_line_items_amended (db : DB) (cid clid : Nat) (cands : List Nat)
    (mt : ManualTotals) (n : String) (d : Nat) (S : Snapshot)
    (h : prepare_invoice_data db cid clid cands mt n d = .ok S) :
    S.line_items.length = (db.candidates.filter (fun c => cands.contains c.id)).length
    ∧ ∀ i c, (db.candidates.filter (fun c => cands.contains c.id))[i]? = some c →
        ∃ item, S.line_items[i]? = some item
          ∧ itemGet item (some "serial_no") = some (Value.vNum ((1 + i : Nat) : Rat))
          ∧ (∀ col ∈ S.columns, ∀ f, col.field_name = some f →
              (itemGet item (some f)).isSome = true)
          ∧ (∀ col ∈ S.columns, ∀ f, col.field_name = some f → f ≠ "amount" →
              itemGet item (some f)
                = some ((bagGet c.candidate_data (some f)).getD (Value.vStr "")))
          ∧ itemGet item (some "amount")
              = some ((bagGet c.candidate_data (some "amount")).getD (Value.vNum 0)) := by
  obtain ⟨hcols, hitems, -, -⟩ := prepare_ok_fields db cid clid cands mt n d S h
  constructor
  · rw [hitems, buildLineItems_length]
  · intro i c hc
    refine ⟨buildItem S.columns (1 + i) c, ?_, ?_, ?_, ?_, ?_⟩
    · rw [hitems, buildLineItems_getElem?, hc]
      rfl
    · refine buildItem_serial S.columns (1 + i) c ?_
      intro col hcol
      exact resolveColumns_no_serial _ col (hcols ▸ hcol)
    · intro col hcol f hf
      exact buildItem_isSome S.columns (1 + i) c f ⟨col, hcol, hf⟩
    · intro col hcol f hf hne
      exact buildItem_field S.columns (1 + i) c f ⟨col, hcol, hf⟩ hne
    · exact buildItem_amount S.columns (1 + i) c

/-- Witness for the amended C5 at the configured aggregation over dbC, first
candidate (empty bag). -/
theorem C5_line_items_amended_witness :
    ∃ item, snap5.line_items[0]? = some item
      ∧ itemGet item (some "serial_no") = some (Value.vNum ((1 + 0 : Nat) : Rat))
      ∧ (∀ col ∈ snap5.columns, ∀ f, col.field_name = some f →
          (itemGet item (some f)).isSome = true)
      ∧ (∀ col ∈ snap5.columns, ∀ f, col.field_name = some f → f ≠ "amount" →
          itemGet item (some f)
            = some ((bagGet cand50.candidate_data (some f)).getD (Value.vStr "")))
      ∧ itemGet item (some "amount")
          = some ((bagGet cand50.candidate_data (some "amount")).getD (Value.vNum 0)) :=
  (C5_line_items_amended dbC 1 10 [50, 51] mt0 "INV-5" 9 snap5 rfl).2 0 cand50 rfl

/-- Claim C10: a candidate whose attribute bag lacks the amount key (in
particular an empty bag) yields a line item whose amount value is the number 0,
not the empty string, whatever the configured columns are. -/
theorem C10_missing_amount_is_zero (db : DB) (cid clid : Nat) (cands : List Nat)
    (mt : ManualTotals) (n : String) (d : Nat) (S : Snapshot)
    (h : prepare_invoice_data db cid clid cands mt n d = .ok S)
    (i : Nat) (c : CandidateRec)
    (hc : (db.candidates.filter (fun c => cands.contains c.id))[i]? = some c)
    (hno : bagGet c.candidate_data (some "amount") = none) :
    (S.line_items[i]?).map (fun it => itemGet it (some "amount"))
      = some (some (Value.vNum 0)) := by
  obtain ⟨-, hitems, -, -⟩ := prepare_ok_fields db cid clid cands mt n d S h
  rw [hitems, buildLineItems_getElem?, hc]
  show some (itemGet (buildItem S.columns (1 + i) c) (some "amount"))
    = some (some (Value.vNum 0))
  rw [buildItem_amount, hno]
  rfl

/-- Witness for C10 over dbC: the first candidate has an empty bag and amount
itself is among the configured columns. -/
theorem C10_missing_amount_is_zero_witness :
    (snap5.line_items[0]?).map (fun it => itemGet it (some "amount"))
      = some (some (Value.vNum 0)) :=
  C10_missing_amount_is_zero dbC 1 10 [50, 51] mt0 "INV-5" 9 snap5 rfl 0 cand50 rfl rfl

/-- A failing generate never creates a row: its database is unchanged unless it
returned a row. -/
theorem generate_invoice_db_cases (db : DB) (fs : FS) (cid clid : Nat)
    (cands : List Nat) (mt : ManualTotals) (n : String) (d : Nat) (st : String) :
    (generate_invoice db fs cid clid cands mt n d st).db = db
    ∨ ∃ row, (generate_invoice db fs cid clid cands mt n d st).out = .ok row := by
  unfold generate_invoice
  split
  · exact Or.inl rfl
  · split
    · exact Or.inl rfl
    · split
      · exact Or.inl rfl
      · exact Or.inr ⟨_, rfl⟩

/-- Claim C7 counterexample: the claim asserts every failing update leaves the
pre-existing row pointing at an artifact that still exists with its pre-call
content.  Updating the DRAFT invoice INV-1 of company 1 to the number INV-2 —
held by company 2, so the per-company pre-check passes — deletes the old
artifact, renders the new one, and is then rejected at commit by the global
unique constraint: the row is rolled back unchanged, still pointing at the
INV-1 artifact, which is gone. -/
theorem C7_update_atomicity_counterexample :
    (update_invoice dbX fsX invB none none none (some "INV-2")).out
      = .error .integrityError
    ∧ (update_invoice dbX fsX invB none none none (some "INV-2")).db = dbX
    ∧ invB ∈ dbX.invoices
    ∧ invB.file_url = "/static/invoices/INV-1.docx"
    ∧ fsGet fsX "static/invoices/INV-1.docx" = some snapB
    ∧ fsGet (update_invoice dbX fsX invB none none none (some "INV-2")).fs
        "static/invoices/INV-1.docx" = none :=
  ⟨rfl, rfl, List.mem_cons_of_mem invA (List.mem_cons_self invB []), rfl, rfl, rfl⟩

/-- Claim C7 as amended: generate is atomic with respect to the row — every
failing generate creates no invoice row; update leaves both the row and the
artifact store untouched when it fails at the status guard or at the
per-company uniqueness pre-check.  (A failure after the pre-checks deletes the
old artifact first, as the counterexample shows.) -/
theorem C7_atomicity_amended (db : DB) (fs : FS) (cid clid : Nat) (cands : List Nat)
    (mt : ManualTotals) (n : String) (d : Nat) (st : String) (inv : InvoiceRec)
    (ocands : Option (List Nat)) (omt : Option ManualTotals) (od : Option Nat)
    (onum : Option String) :
    (∀ e, (generate_invoice db fs cid clid cands mt n d st).out = .error e →
        (generate_invoice db fs cid clid cands mt n d st).db = db)
    ∧ (inv.status ≠ "DRAFT" →
        (update_invoice db fs inv ocands omt od onum).db = db
        ∧ (update_invoice db fs inv ocands omt od onum).fs = fs)
    ∧ (inv.status = "DRAFT" → updNumberConflict db inv onum = true →
        (update_invoice db fs inv ocands omt od onum).db = db
        ∧ (update_invoice db fs inv ocands omt od onum).fs = fs) := by
  refine ⟨?_, ?_, ?_⟩
  · intro e he
    rcases generate_invoice_db_cases db fs cid clid cands mt n d st with hdb | ⟨row, hrow⟩
    · exact hdb
    · rw [he] at hrow
      exact absurd hrow (by simp)
  · intro h1
    unfold update_invoice
    rw [if_pos h1]
    exact ⟨rfl, rfl⟩
  · intro h1 h2
    unfold update_invoice
    rw [if_neg (by rw [h1]; simp), if_pos h2]
    exact ⟨rfl, rfl⟩

/-- Witness for the amended C7: a conflicting generate leaves the database
unchanged; update on a non-DRAFT invoice and update hitting the per-company
number conflict leave database and store unchanged. -/
theorem C7_atomicity_amended_witness :
    (generate_invoice db1 fs1 1 10 [] mt0 "INV-1" 6 "DRAFT").db = db1
    ∧ ((update_invoice dbX fsX invA none none none none).db = dbX
        ∧ (update_invoice dbX fsX invA none none none none).fs = fsX)
    ∧ ((update_invoice dbY fs0 invB none none none (some "INV-4")).db = dbY
        ∧ (update_invoice dbY fs0 invB none none none (some "INV-4")).fs = fs0) :=
  ⟨(C7_atomicity_amended db1 fs1 1 10 [] mt0 "INV-1" 6 "DRAFT"
      invA none none none none).1 (.conflict "INV-1") rfl,
   (C7_atomicity_amended dbX fsX 1 10 [] mt0 "INV-1" 6 "DRAFT"
      invA none none none none).2.1 (by decide),
   (C7_atomicity_amended dbY fs0 1 10 [] mt0 "INV-1" 6 "DRAFT"
      invB none none none (some "INV-4")).2.2 rfl (by decide)⟩

/-- Claim C8 counterexample: the claim asserts a non-persisted preview writes
its artifact under the name invoice_number_preview.docx.  The preview path
calls the very same generate_docx as generate, so the preview of INV-9 returns
the persisted-artifact locator, not the preview-named one of the unused helper
get_temp_invoice_path, and it overwrites the persisted INV-9 artifact. -/
theorem C8_preview_naming_counterexample :
    ((preview_draft_invoice db0 fsP 1 10 [] mt0 "INV-9" 7).out.toOption).map
        (fun p => p.2)
      = some "/static/invoices/INV-9.docx"
    ∧ "/static/invoices/INV-9.docx" ≠ (get_temp_invoice_path "INV-9").2.2
    ∧ fsGet fsP "static/invoices/INV-9.docx" = some snapB
    ∧ fsGet (preview_draft_invoice db0 fsP 1 10 [] mt0 "INV-9" 7).fs
        "static/invoices/INV-9.docx" ≠ some snapB :=
  ⟨rfl, by decide, rfl, by decide⟩

/-- Claim C8 as amended: artifact naming is deterministic from the invoice
number, but previews share the persisted name.  A successful generate stores
the locator of get_invoice_file_path; a successful preview returns that SAME
locator (not the preview-suffixed one); the helper get_temp_invoice_path would
produce the preview-suffixed name but no service code calls it.  Re-rendering
with the same number therefore always overwrites the artifact of that number,
previews included. -/
theorem C8_artifact_naming_amended (db : DB) (fs : FS) (cid clid : Nat)
    (cands : List Nat) (mt : ManualTotals) (n : String) (d : Nat) (st : String)
    (row : InvoiceRec) (fs2 : FS) (cid2 clid2 : Nat) (cands2 : List Nat)
    (mt2 : ManualTotals) (n2 : String) (d2 : Nat) (pr : Snapshot × String) :
    ((generate_invoice db fs cid clid cands mt n d st).out = .ok row →
        row.file_url = (get_invoice_file_path n).2.2)
    ∧ ((preview_draft_invoice db fs2 cid2 clid2 cands2 mt2 n2 d2).out = .ok pr →
        pr.2 = (get_invoice_file_path n2).2.2)
    ∧ (get_temp_invoice_path n).2.2 = "/static/invoices/" ++ (n ++ "_preview.docx") := by
  refine ⟨?_, ?_, rfl⟩
  · intro h
    unfold generate_invoice at h
    split at h
    next => exact absurd h (by simp)
    next =>
      split at h
      next e heq => exact absurd h (by simp)
      next data heq =>
        split at h
        next => exact absurd h (by simp)
        next =>
          have hr := Except.ok.inj h
          subst hr
          have hn := (prepare_ok_fields db cid clid cands mt n d data heq).2.2.2
          show "/static/invoices/" ++ (data.invoice_number ++ ".docx")
            = (get_invoice_file_path n).2.2
          rw [hn]
          rfl
  · intro h
    unfold preview_draft_invoice at h
    split at h
    next e heq => exact absurd h (by simp)
    next data heq =>
      have hr := Except.ok.inj h
      subst hr
      have hn := (prepare_ok_fields db cid2 clid2 cands2 mt2 n2 d2 data heq).2.2.2
      show "/static/invoices/" ++ (data.invoice_number ++ ".docx")
        = (get_invoice_file_path n2).2.2
      rw [hn]
      rfl

/-- Witness for the amended C8: the generated INV-1 row stores the
get_invoice_file_path locator, and the preview of INV-9 returns the
get_invoice_file_path locator for INV-9. -/
theorem C8_artifact_naming_amended_witness :
    genRow0.file_url = (get_invoice_file_path "INV-1").2.2
    ∧ previewPair9.2 = (get_invoice_file_path "INV-9").2.2 :=
  ⟨(C8_artifact_naming_amended db0 fs0 1 10 [] mt0 "INV-1" 5 "DRAFT" genRow0
      fsP 1 10 [] mt0 "INV-9" 7 previewPair9).1 rfl,
   (C8_artifact_naming_amended db0 fs0 1 10 [] mt0 "INV-1" 5 "DRAFT" genRow0
      fsP 1 10 [] mt0 "INV-9" 7 previewPair9).2.1 rfl⟩

end HRM
